import Mathlib

/-!
Shallow embedding of js/lib/pyramid.js, a small client-side pyramid chart
renderer built on D3, together with the DOM and D3 facts its behavior
depends on.  JS numbers are modelled as rationals (the program only does
field arithmetic on container sizes, so no NaN/Infinity arises on the
inputs the claims quantify over; where a division by zero or a NaN could
occur in JS this is noted at the definition).  JS exceptions are modelled
by Option: a result of none means the operation threw a TypeError.
Diagnostic console.error output is modelled as a list of message strings
returned next to the result.
-/

/-- JS values as far as this library can observe them: the primitives, the
string arrays used as datasets, and opaque function and object references
(a D3 color scale is a function; the dimensions record is an object). -/
inductive JSVal where
  | undefined
  | null
  | bool (b : Bool)
  | num (q : ℚ)
  | str (s : String)
  | arr (xs : List String)
  | fn (id : Nat)
  | obj
  deriving DecidableEq

/-- JS truthiness: undefined, null, false, 0 and the empty string are falsy;
every object, array and function is truthy.  (NaN, the one other falsy
number, has no counterpart in the rational model.) -/
def JSVal.truthy : JSVal → Bool
  | .undefined => false
  | .null => false
  | .bool b => b
  | .num q => decide (q ≠ 0)
  | .str s => decide (s ≠ "")
  | .arr _ => true
  | .fn _ => true
  | .obj => true

/-- Value of a list of decimal digit characters, most significant first. -/
def digitsVal (l : List Char) : ℕ :=
  l.foldl (fun a c => a * 10 + (c.toNat - 48)) 0

/-- Simplified JS ToNumber on an unsigned decimal numeral: an integer part
and an optional fractional part, at least one of them nonempty.  Returns
none (modelling NaN) for anything else; hex, exponent and Infinity forms
are outside the model (no claim depends on them). -/
def decToNum (t : String) : Option ℚ :=
  match t.splitOn "." with
  | [w] =>
      if w.length ≠ 0 ∧ w.toList.all Char.isDigit then
        some (digitsVal w.toList : ℚ)
      else none
  | [w, f] =>
      if (w.length ≠ 0 ∨ f.length ≠ 0) ∧ w.toList.all Char.isDigit
          ∧ f.toList.all Char.isDigit then
        some ((digitsVal w.toList : ℚ) + (digitsVal f.toList : ℚ) / (10 : ℚ) ^ f.length)
      else none
  | _ => none

/-- Simplified JS ToNumber on strings: whitespace-only is 0, otherwise an
optionally signed decimal numeral. -/
def strToNum (s : String) : Option ℚ :=
  let t := s.trim
  if t = "" then some 0
  else if t.startsWith "-" then (decToNum (t.drop 1)).map (fun q => -q)
  else if t.startsWith "+" then decToNum (t.drop 1)
  else decToNum t

/-- JS ToNumber on a value, with none modelling NaN.  An array converts via
its ToString, which joins the elements with commas; objects and functions
convert to non-numeric strings, hence NaN. -/
def JSVal.toNum : JSVal → Option ℚ
  | .undefined => none
  | .null => some 0
  | .bool b => some (if b then 1 else 0)
  | .num q => some q
  | .str s => strToNum s
  | .arr xs => strToNum (String.intercalate "," xs)
  | .fn _ => none
  | .obj => none

/-- JS loose equality of a value with the literal false, as used by the
constructor line (autoFit == false).  The false converts to the number 0,
so this is a ToNumber comparison with 0; null and undefined are loosely
equal only to each other and never to false. -/
def looseEqFalse : JSVal → Bool
  | .undefined => false
  | .null => false
  | v => decide (v.toNum = some 0)

/-- Models the JS parentContainer.split of the selector string on the
character "#", as the list of pieces. -/
def jsSplitHash (s : String) : List String :=
  (s.toList.splitOn '#').map List.asString

/-- A DOM element as the constructor observes it: its computed style height
and width in pixels.  The source reads strings such as "400px" and splits
the number off; the numeric value is stored here directly, since every
later use coerces that numeric string to this number. -/
structure Element where
  heightPx : ℚ
  widthPx : ℚ
  deriving DecidableEq

/-- The margins object stored at this.dimensions.margins. -/
structure Margins where
  top : ℚ
  bottom : ℚ
  left : ℚ
  right : ℚ
  deriving DecidableEq

/-- The chart object stored at this.dimensions.chart by setDimensions. -/
structure Chart where
  width : ℚ
  height : ℚ
  deriving DecidableEq

/-- The dimensions object.  innerHeight, innerWidth and chart do not exist
until setDimensions assigns them, hence the Option. -/
structure Dimensions where
  outerHeight : ℚ
  outerWidth : ℚ
  margins : Margins
  innerHeight : Option ℚ
  innerWidth : Option ℚ
  chart : Option Chart
  deriving DecidableEq

/-- A 2D point as produced by generatePoints. -/
structure Point where
  x : ℚ
  y : ℚ
  deriving DecidableEq

/-- The instance state of a Pyramid object: exactly the own properties the
constructor assigns, in source order.  baseToHeightRatio is a JS number
(the API contract of setRelativeWidth), modelled as a rational; className,
parentContainer, colorScale and data keep their raw JS values, since the
setters store whatever argument they are given. -/
structure Pyramid where
  data : JSVal
  baseToHeightRatio : ℚ
  parentContainer : JSVal
  dimensions : Dimensions
  className : JSVal
  autoFit : Bool
  colorScale : JSVal
  deriving DecidableEq

/-- The constructor function Pyramid(data, parentContainer, className,
autoFit, colorScale) run against a document, modelled as a lookup table
from element ids to elements.  It logs when data or parentContainer is
falsy and then measures the container: parentContainer.split throws a
TypeError unless parentContainer is a string, and getComputedStyle throws
when getElementById finds no element (getElementById coerces a missing
id argument to the string "undefined").  A throw yields none; the logs
emitted before the throw are kept.  The missing className defaults to
"pyramid", a falsy autoFit other than (loosely) false defaults to true,
and the missing colorScale defaults to a fresh d3.scale.category20(),
modelled as the opaque function value 0. -/
def Pyramid.construct (doc : List (String × Element))
    (data parentContainer className autoFit colorScale : JSVal) :
    List String × Option Pyramid :=
  let logs :=
    (if data.truthy then [] else ["We have no data to put into the pyramid!"]) ++
    (if parentContainer.truthy then [] else ["A parent element has not been specified!"])
  match parentContainer with
  | .str s =>
    match doc.lookup ((jsSplitHash s)[1]?.getD "undefined") with
    | some el =>
        (logs, some {
          data := data
          baseToHeightRatio := 3 / 4
          parentContainer := if (JSVal.str s).truthy then .str s else .null
          dimensions := {
            outerHeight := el.heightPx
            outerWidth := el.widthPx
            margins := { top := 25, bottom := 25, left := 25, right := 25 }
            innerHeight := none
            innerWidth := none
            chart := none }
          className := if className.truthy then className else .str "pyramid"
          autoFit := if looseEqFalse autoFit then false else true
          colorScale := if colorScale.truthy then colorScale else .fn 0 })
    | none => (logs, none)
  | _ => (logs, none)

/-- Pyramid.prototype.setColorScale: logs when the argument is falsy and
assigns it unconditionally. -/
def Pyramid.setColorScale (p : Pyramid) (colorScale : JSVal) :
    List String × Pyramid :=
  ((if colorScale.truthy then [] else ["No color scale has been specified!"]),
   { p with colorScale := colorScale })

/-- Pyramid.prototype.setParentContainer: logs when the argument is falsy
and assigns it unconditionally. -/
def Pyramid.setParentContainer (p : Pyramid) (parentContainer : JSVal) :
    List String × Pyramid :=
  ((if parentContainer.truthy then []
    else ["No parent container element has been specified!"]),
   { p with parentContainer := parentContainer })

/-- Pyramid.prototype.setClassName: logs when the argument is falsy and
assigns it unconditionally. -/
def Pyramid.setClassName (p : Pyramid) (className : JSVal) :
    List String × Pyramid :=
  ((if className.truthy then [] else ["No class name has been specified!"]),
   { p with className := className })

/-- Pyramid.prototype.setRelativeWidth: the ratio argument is a JS number;
the method logs when it is falsy (for a number: zero) and assigns it
unconditionally. -/
def Pyramid.setRelativeWidth (p : Pyramid) (ratio : ℚ) :
    List String × Pyramid :=
  ((if (JSVal.num ratio).truthy then []
    else ["No relative width has been specified!"]),
   { p with baseToHeightRatio := ratio })

/-- Pyramid.prototype.calcBaseToHeightRatio: reads this.dimensions.chart,
which exists only after setDimensions has run (reading it earlier throws
in JS, modelled by none). -/
def Pyramid.calcBaseToHeightRatio (p : Pyramid) : Option ℚ :=
  p.dimensions.chart.map fun c => c.width / 2 / c.height

/-- Pyramid.prototype.generatePoints: the three vertices of the slice with
the given array index (0 is the apex-most slice), around the given
horizontal center, with the given per-slice height. -/
def Pyramid.generatePoints (p : Pyramid) (arrayIndex : ℕ)
    (center sliceHeight : ℚ) : List Point :=
  [ { x := center, y := 0 },
    { x := center - ((arrayIndex : ℚ) + 1) * p.baseToHeightRatio * sliceHeight
      y := sliceHeight * ((arrayIndex : ℚ) + 1) },
    { x := center + ((arrayIndex : ℚ) + 1) * p.baseToHeightRatio * sliceHeight
      y := sliceHeight * ((arrayIndex : ℚ) + 1) } ]

/-- The argument of setMargins: either a plain JS value passed where an
object is expected, or a margins object with any subset of the four sides
present, each side a JS number (modelled as a rational). -/
inductive MarginsVal where
  | prim (v : JSVal)
  | obj (top bottom left right : Option ℚ)
  deriving DecidableEq

/-- Truthiness of a setMargins argument: objects are always truthy. -/
def MarginsVal.truthy : MarginsVal → Bool
  | .prim v => v.truthy
  | .obj _ _ _ _ => true

/-- Models one statement of the form: if (margins.side)
this.dimensions.margins.side = margins.side.  An absent side reads as
undefined, which is falsy; a present side is assigned only when its
value is truthy (for a number: nonzero). -/
def mergeSide (cur : ℚ) (given : Option ℚ) : ℚ :=
  match given with
  | some v => if (JSVal.num v).truthy then v else cur
  | none => cur

/-- Merge of one margins side following the wording of the amended claim,
stated independently of the source: a side named with a nonzero value is
updated to that value; a side named with the falsy 0, or not named at
all, retains the current value.  Kept separate from the source-side
mergeSide so the setMargins theorems can compare the code against the
claim text. -/
def specMergeSide (cur : ℚ) (given : Option ℚ) : ℚ :=
  match given with
  | some v => if v = 0 then cur else v
  | none => cur

/-- Pyramid.prototype.setMargins: logs when the argument is falsy; reading
margins.top on null or undefined then throws a TypeError (none); on any
other primitive every side reads as undefined, so nothing is updated; on
an object each truthy side is merged into the current margins. -/
def Pyramid.setMargins (p : Pyramid) (margins : MarginsVal) :
    List String × Option Pyramid :=
  let logs := if margins.truthy then [] else ["No margins have been specified!"]
  match margins with
  | .prim .null => (logs, none)
  | .prim .undefined => (logs, none)
  | .prim _ => (logs, some p)
  | .obj t b l r =>
    (logs, some { p with dimensions := { p.dimensions with margins :=
      { top := mergeSide p.dimensions.margins.top t
        bottom := mergeSide p.dimensions.margins.bottom b
        left := mergeSide p.dimensions.margins.left l
        right := mergeSide p.dimensions.margins.right r } } })

/-- Pyramid.prototype.setDimensions: derives inner height and width from
the outer size and the margins and stores the chart object. -/
def Pyramid.setDimensions (p : Pyramid) : Pyramid :=
  let ih := p.dimensions.outerHeight - p.dimensions.margins.top
      - p.dimensions.margins.bottom
  let iw := p.dimensions.outerWidth - p.dimensions.margins.left
      - p.dimensions.margins.right
  { p with dimensions := { p.dimensions with
      innerHeight := some ih
      innerWidth := some iw
      chart := some { width := iw, height := ih } } }

/-- One path element drawn by render: its point list (the path generator
closes it) and the datum whose colorScale image fills it. -/
structure TriangleShape where
  points : List Point
  datum : String
  deriving DecidableEq

/-- One text label drawn by render. -/
structure LabelShape where
  text : String
  x : ℚ
  y : ℚ
  deriving DecidableEq

/-- One svg element appended to the parent container by one render call,
with the group it contains flattened into its triangle and label lists. -/
structure SvgNode where
  className : JSVal
  width : ℚ
  height : ℚ
  triangles : List TriangleShape
  labels : List LabelShape
  deriving DecidableEq

/-- Pyramid.prototype.render, acting on the instance state and the list of
svg elements already present in the parent container.  Faithful to the
source, including two points the documentation of the library disagrees
with: Array.prototype.reverse reverses this.data IN PLACE (the local
variable reversed aliases the same array), and the d3 call
selectAll(dot className).empty() only RETURNS whether that selection is
empty, removing nothing, so every call appends one more svg element.
When this.data is not an array, this.data.reverse throws (none).  The
division chart.height / data.length gives Infinity in JS on an empty
dataset; the rational model gives 0 there, and no claim quantifies over
empty datasets. -/
def Pyramid.render (p : Pyramid) (container : List SvgNode) :
    List String × Option (Pyramid × List SvgNode) :=
  match p.data with
  | .arr xs =>
    let reversed := xs.reverse
    let p1 : Pyramid := { p with data := .arr reversed }
    let p2 := p1.setDimensions
    match p2.dimensions.chart with
    | none => ([], none)
    | some chart =>
      let center := chart.width / 2
      let sliceHeight := chart.height / (xs.length : ℚ)
      let fitted : List String × Pyramid :=
        if p2.autoFit then
          p2.setRelativeWidth ((p2.calcBaseToHeightRatio).getD 0)
        else ([], p2)
      let p3 := fitted.2
      let n := reversed.length
      let triangles : List TriangleShape := reversed.enum.map fun e =>
        { points := p3.generatePoints (n - e.1 - 1) center sliceHeight
          datum := e.2 }
      let labels : List LabelShape := reversed.enum.map fun e =>
        { text := e.2
          x := center
          y := ((n : ℚ) - (e.1 : ℚ)) * sliceHeight - sliceHeight / (5 / 2) }
      let svg : SvgNode :=
        { className := p3.className
          width := p3.dimensions.outerWidth
          height := p3.dimensions.outerHeight
          triangles := triangles
          labels := labels }
      (fitted.1, some (p3, container ++ [svg]))
  | _ => ([], none)

/-- The method names defined on Pyramid.prototype, in source order.  The
auto-fit setter is defined under the name autoFit; no method named
setAutoFit exists anywhere in the source. -/
def pyramidPrototypeMethods : List String :=
  ["setColorScale", "setParentContainer", "setClassName", "setRelativeWidth",
   "autoFit", "calcBaseToHeightRatio", "generatePoints", "setMargins",
   "setDimensions", "render"]

/-- Result of a JS property lookup on a Pyramid instance. -/
inductive LookupResult where
  | value (v : JSVal)
  | method (name : String)
  | missing
  deriving DecidableEq

/-- Whether a looked-up property can be invoked as a function. -/
def LookupResult.callable : LookupResult → Bool
  | .method _ => true
  | .value (JSVal.fn _) => true
  | _ => false

/-- JS property lookup on a Pyramid instance: the own properties the
constructor assigned are consulted first, in source order, and only then
the prototype.  Because the constructor assigns the boolean own property
this.autoFit, that boolean shadows the prototype function autoFit for
every instance.  The dimensions own property is an object, modelled by
the opaque object value. -/
def Pyramid.lookupProp (p : Pyramid) (name : String) : LookupResult :=
  if name = "data" then .value p.data
  else if name = "baseToHeightRatio" then .value (.num p.baseToHeightRatio)
  else if name = "parentContainer" then .value p.parentContainer
  else if name = "dimensions" then .value .obj
  else if name = "className" then .value p.className
  else if name = "autoFit" then .value (.bool p.autoFit)
  else if name = "colorScale" then .value p.colorScale
  else if name ∈ pyramidPrototypeMethods then .method name
  else .missing

/-- A sample document: one container element with id viz whose computed
style is height 400px and width 300px. -/
def demoDoc : List (String × Element) :=
  [("viz", { heightPx := 400, widthPx := 300 })]

/-- The pyramid built by new Pyramid with the dataset A, B and the selector
for the sample container, all optional arguments omitted: default class
name, autoFit true and the default color scale. -/
def demoPyramid : Pyramid :=
  { data := .arr ["A", "B"]
    baseToHeightRatio := 3 / 4
    parentContainer := .str "#viz"
    dimensions :=
      { outerHeight := 400
        outerWidth := 300
        margins := { top := 25, bottom := 25, left := 25, right := 25 }
        innerHeight := none
        innerWidth := none
        chart := none }
    className := .str "pyramid"
    autoFit := true
    colorScale := .fn 0 }

/-- The demo pyramid after setMargins with only the left side, set to 40. -/
def demoMargins40 : Pyramid :=
  { demoPyramid with dimensions := { demoPyramid.dimensions with
      margins := { top := 25, bottom := 25, left := 40, right := 25 } } }

/-- The demo pyramid after setDimensions and setRelativeWidth with the
auto-fit ratio of its 250 by 350 chart area. -/
def demoFit : Pyramid :=
  (demoPyramid.setDimensions.setRelativeWidth (250 / 2 / 350)).2

/-- Result of the first render call on the demo pyramid, into an empty
parent container. -/
def renderedOnce : List String × Option (Pyramid × List SvgNode) :=
  demoPyramid.render []

/-- Result of a second render call on the instance state and container
contents left by the first. -/
def renderedTwice : Option (Pyramid × List SvgNode) :=
  renderedOnce.2.bind fun pr => (pr.1.render pr.2).2

/-- Splitting the demo selector on the hash character. -/
theorem jsSplitHash_viz : jsSplitHash "#viz" = ["", "viz"] := by decide

/-- Sanity check: the constructor run on the sample document with dataset
A, B and the viz selector produces exactly the demo pyramid, with no
diagnostics. -/
theorem demoPyramid_constructed :
    Pyramid.construct demoDoc (.arr ["A", "B"]) (.str "#viz")
      .undefined .undefined .undefined = ([], some demoPyramid) := by
  simp [Pyramid.construct, jsSplitHash_viz, demoDoc, demoPyramid,
    JSVal.truthy, looseEqFalse, JSVal.toNum, List.lookup]

/-- C1: the claim states that render does not mutate the ordering of the
dataset as seen by the caller, operating on a local reversed copy.  The
source instead calls Array.prototype.reverse on this.data, which reverses
the caller array in place: after a single render of the dataset A, B the
caller reads B, A.  This theorem evaluates the code at that failing
input. -/
theorem C1_render_reverses_caller_data_in_place :
    demoPyramid.data = JSVal.arr ["A", "B"] ∧
    ((demoPyramid.render []).2.map fun pr => pr.1.data)
      = some (JSVal.arr ["B", "A"]) ∧
    JSVal.arr ["B", "A"] ≠ JSVal.arr ["A", "B"] := by
  refine ⟨rfl, ?_, by decide⟩
  simp [Pyramid.render, Pyramid.setDimensions, Pyramid.setRelativeWidth,
    Pyramid.calcBaseToHeightRatio, demoPyramid]

/-- C2: the claim states that render is idempotent because previously drawn
shapes of the instance class are removed on each call.  The d3 call the
source makes, selectAll(...).empty(), only reports emptiness and removes
nothing, so a second render appends a second svg element (two svgs where
the claim expects one), and since the first call also reversed this.data
in place, the labels of the second svg list the texts in the opposite
order of the first.  This theorem evaluates the code at that failing
input. -/
theorem C2_render_not_idempotent_shapes_accumulate :
    (renderedOnce.2.map fun pr => pr.2.length) = some 1 ∧
    (renderedTwice.map fun pr => pr.2.length) = some 2 ∧
    (renderedTwice.map fun pr => pr.2.map fun s => s.labels.map LabelShape.text)
      = some [["B", "A"], ["A", "B"]] ∧
    ["B", "A"] ≠ ["A", "B"] := by
  refine ⟨?_, ?_, ?_, by decide⟩ <;>
    simp [renderedOnce, renderedTwice, Pyramid.render, Pyramid.setDimensions,
      Pyramid.setRelativeWidth, Pyramid.calcBaseToHeightRatio, demoPyramid,
      List.enum, List.enumFrom]

/-- C3 counterexample: the claim states every setter invoked with a falsy
argument leaves the stored state unchanged.  Invoking setColorScale with
null (falsy) logs the error but then assigns null over the previously
stored default scale, so the stored state is changed. -/
theorem C3_cex_setColorScale_overwrites_state :
    JSVal.truthy JSVal.null = false ∧
    demoPyramid.colorScale = JSVal.fn 0 ∧
    (demoPyramid.setColorScale JSVal.null).1
      = ["No color scale has been specified!"] ∧
    (demoPyramid.setColorScale JSVal.null).2.colorScale = JSVal.null ∧
    JSVal.null ≠ JSVal.fn 0 := by
  refine ⟨rfl, rfl, ?_, rfl, by decide⟩
  simp [Pyramid.setColorScale, JSVal.truthy]

/-- C4 counterexample: the claim states construction never throws, even
with a missing parentContainer.  Constructing with undefined as the
parentContainer logs the diagnostic but then throws a TypeError on
parentContainer.split, so no renderer is returned. -/
theorem C4_cex_construct_throws_without_container :
    (Pyramid.construct demoDoc (.arr ["A"]) .undefined
      .undefined .undefined .undefined).1
      = ["A parent element has not been specified!"] ∧
    (Pyramid.construct demoDoc (.arr ["A"]) .undefined
      .undefined .undefined .undefined).2 = none := by
  constructor <;> rfl

/-- C3 amended: each of setColorScale, setClassName, setParentContainer and
setRelativeWidth invoked with ANY falsy argument (null and undefined
included) logs its error but still overwrites the stored state with that
falsy argument; setMargins with a null or undefined argument logs and
then throws a TypeError reading a property of the argument, while with
any other falsy argument it logs and leaves the pyramid unchanged. -/
theorem C3_setters_log_but_overwrite (p : Pyramid) (v u : JSVal)
    (hv : v.truthy = false)
    (hu : u.truthy = false) (hun : u ≠ JSVal.null) (huu : u ≠ JSVal.undefined) :
    p.setColorScale v
      = (["No color scale has been specified!"], { p with colorScale := v }) ∧
    p.setClassName v
      = (["No class name has been specified!"], { p with className := v }) ∧
    p.setParentContainer v
      = (["No parent container element has been specified!"],
         { p with parentContainer := v }) ∧
    p.setRelativeWidth 0
      = (["No relative width has been specified!"],
         { p with baseToHeightRatio := 0 }) ∧
    p.setMargins (.prim JSVal.null) = (["No margins have been specified!"], none) ∧
    p.setMargins (.prim JSVal.undefined)
      = (["No margins have been specified!"], none) ∧
    p.setMargins (.prim u) = (["No margins have been specified!"], some p) := by
  refine ⟨?_, ?_, ?_, ?_, rfl, rfl, ?_⟩
  · simp [Pyramid.setColorScale, hv]
  · simp [Pyramid.setClassName, hv]
  · simp [Pyramid.setParentContainer, hv]
  · simp [Pyramid.setRelativeWidth, JSVal.truthy]
  · cases u <;> simp_all [Pyramid.setMargins, MarginsVal.truthy, JSVal.truthy]

/-- C3 witness: the amended behavior evaluated on the demo pyramid, with
the canonical missing argument undefined overwriting the four assigning
setters and the non-nullish falsy argument false leaving setMargins a
no-op beyond the log. -/
theorem C3_setters_log_but_overwrite_witness :
    demoPyramid.setColorScale JSVal.undefined
      = (["No color scale has been specified!"],
         { demoPyramid with colorScale := JSVal.undefined }) ∧
    demoPyramid.setClassName JSVal.undefined
      = (["No class name has been specified!"],
         { demoPyramid with className := JSVal.undefined }) ∧
    demoPyramid.setParentContainer JSVal.undefined
      = (["No parent container element has been specified!"],
         { demoPyramid with parentContainer := JSVal.undefined }) ∧
    demoPyramid.setRelativeWidth 0
      = (["No relative width has been specified!"],
         { demoPyramid with baseToHeightRatio := 0 }) ∧
    demoPyramid.setMargins (.prim JSVal.null)
      = (["No margins have been specified!"], none) ∧
    demoPyramid.setMargins (.prim JSVal.undefined)
      = (["No margins have been specified!"], none) ∧
    demoPyramid.setMargins (.prim (.bool false))
      = (["No margins have been specified!"], some demoPyramid) :=
  C3_setters_log_but_overwrite demoPyramid JSVal.undefined (.bool false)
    rfl rfl (by decide) (by decide)

/-- C4 amended: construction with falsy data but a valid container selector
logs the missing-data diagnostic and completes, storing that falsy data;
construction with a null or undefined parentContainer emits its
diagnostics but then throws a TypeError measuring the container, so it
does not complete normally. -/
theorem C4_construct_falsy_data_ok_falsy_container_throws
    (doc : List (String × Element)) (data className autoFit colorScale : JSVal)
    (s : String) (el : Element)
    (hdata : data.truthy = false)
    (hs : (JSVal.str s).truthy = true)
    (hlook : doc.lookup ((jsSplitHash s)[1]?.getD "undefined") = some el) :
    (Pyramid.construct doc data (.str s) className autoFit colorScale).1
      = ["We have no data to put into the pyramid!"] ∧
    ((Pyramid.construct doc data (.str s) className autoFit colorScale).2.map
      Pyramid.data) = some data ∧
    (Pyramid.construct doc data .null className autoFit colorScale).1
      = ["We have no data to put into the pyramid!",
         "A parent element has not been specified!"] ∧
    (Pyramid.construct doc data .null className autoFit colorScale).2 = none ∧
    (Pyramid.construct doc data .undefined className autoFit colorScale).2
      = none := by
  refine ⟨?_, ?_, ?_, rfl, rfl⟩
  · simp [Pyramid.construct, hdata, hs, hlook]
  · simp [Pyramid.construct, hdata, hs, hlook]
  · simp only [Pyramid.construct, hdata]
    rfl

/-- C4 witness: the amended behavior evaluated on the sample document with
undefined data and the viz selector. -/
theorem C4_construct_falsy_witness :
    (Pyramid.construct demoDoc .undefined (.str "#viz")
      .undefined .undefined .undefined).1
      = ["We have no data to put into the pyramid!"] ∧
    ((Pyramid.construct demoDoc .undefined (.str "#viz")
      .undefined .undefined .undefined).2.map Pyramid.data)
      = some JSVal.undefined ∧
    (Pyramid.construct demoDoc .undefined .null
      .undefined .undefined .undefined).1
      = ["We have no data to put into the pyramid!",
         "A parent element has not been specified!"] ∧
    (Pyramid.construct demoDoc .undefined .null
      .undefined .undefined .undefined).2 = none ∧
    (Pyramid.construct demoDoc .undefined .undefined
      .undefined .undefined .undefined).2 = none :=
  C4_construct_falsy_data_ok_falsy_container_throws demoDoc
    .undefined .undefined .undefined .undefined "#viz"
    { heightPx := 400, widthPx := 300 } rfl rfl (by decide)

/-- Helper: the source-side merge (a JS truthiness test on the provided
value) agrees with the claim-side merge (an explicit zero test) on every
current value and every provided side. -/
theorem mergeSide_eq_specMergeSide (cur : ℚ) (o : Option ℚ) :
    mergeSide cur o = specMergeSide cur o := by
  cases o with
  | none => rfl
  | some v =>
    by_cases hv : v = 0
    · simp [mergeSide, specMergeSide, JSVal.truthy, hv]
    · simp [mergeSide, specMergeSide, JSVal.truthy, hv]

/-- Helper: merging a side given as the falsy value 0 keeps the current
value. -/
theorem mergeSide_zero (cur : ℚ) : mergeSide cur (some 0) = cur := by
  simp [mergeSide, JSVal.truthy]

/-- Helper: the merge never turns a nonzero margin into zero. -/
theorem mergeSide_ne_zero (cur : ℚ) (o : Option ℚ) (hc : cur ≠ 0) :
    mergeSide cur o ≠ 0 := by
  cases o with
  | none => exact hc
  | some v =>
    by_cases hv : v = 0
    · simp [mergeSide, JSVal.truthy, hv, hc]
    · simp [mergeSide, JSVal.truthy, hv]

/-- Helper: the pyramid produced by setMargins on a margins object. -/
theorem setMargins_obj_eq (p : Pyramid) (t b l r : Option ℚ) (p' : Pyramid)
    (h : (p.setMargins (.obj t b l r)).2 = some p') :
    p' = { p with dimensions := { p.dimensions with margins :=
      { top := mergeSide p.dimensions.margins.top t
        bottom := mergeSide p.dimensions.margins.bottom b
        left := mergeSide p.dimensions.margins.left l
        right := mergeSide p.dimensions.margins.right r } } } := by
  have h' := h
  simp [Pyramid.setMargins] at h'
  exact h'.symm

/-- C5: generatePoints returns exactly three points, the apex at the
center with y 0 and two base points at depth (index plus one) times the
slice height, horizontally offset by (index plus one) times ratio times
slice height on either side, hence symmetric about the center. -/
theorem C5_generatePoints_three_symmetric_points (p : Pyramid) (i : ℕ)
    (center h : ℚ) (hr : 0 < p.baseToHeightRatio) :
    p.generatePoints i center h =
      [{ x := center, y := 0 },
       { x := center - ((i : ℚ) + 1) * p.baseToHeightRatio * h,
         y := ((i : ℚ) + 1) * h },
       { x := center + ((i : ℚ) + 1) * p.baseToHeightRatio * h,
         y := ((i : ℚ) + 1) * h }] ∧
    (p.generatePoints i center h).length = 3 ∧
    ((p.generatePoints i center h).getD 1 { x := 0, y := 0 }).x
      + ((p.generatePoints i center h).getD 2 { x := 0, y := 0 }).x
      = 2 * center := by
  refine ⟨?_, rfl, ?_⟩
  · simp [Pyramid.generatePoints, mul_comm]
  · simp [Pyramid.generatePoints, List.getD]
    ring

/-- C5 witness: the three points at index 0, center 3, slice height 7 on
the demo pyramid, whose ratio 3/4 is positive. -/
theorem C5_generatePoints_witness :
    demoPyramid.generatePoints 0 3 7 =
      [{ x := 3, y := 0 },
       { x := 3 - (((0 : ℕ) : ℚ) + 1) * demoPyramid.baseToHeightRatio * 7,
         y := (((0 : ℕ) : ℚ) + 1) * 7 },
       { x := 3 + (((0 : ℕ) : ℚ) + 1) * demoPyramid.baseToHeightRatio * 7,
         y := (((0 : ℕ) : ℚ) + 1) * 7 }] ∧
    (demoPyramid.generatePoints 0 3 7).length = 3 ∧
    ((demoPyramid.generatePoints 0 3 7).getD 1 { x := 0, y := 0 }).x
      + ((demoPyramid.generatePoints 0 3 7).getD 2 { x := 0, y := 0 }).x
      = 2 * 3 :=
  C5_generatePoints_three_symmetric_points demoPyramid 0 3 7
    (by norm_num [demoPyramid])

/-- C6: calcBaseToHeightRatio returns half the chart width divided by the
chart height, and with that ratio the widest slice (stack index n minus
one, of n slices of height chart height over n) has a base running from
its bottom-left to its bottom-right point of width exactly the chart
width. -/
theorem C6_autoFit_ratio_fills_chart_width (p : Pyramid) (w h : ℚ) (n : ℕ)
    (hc : p.dimensions.chart = some { width := w, height := h })
    (hh : 0 < h) (hn : 0 < n)
    (hr : p.baseToHeightRatio = w / 2 / h) :
    p.calcBaseToHeightRatio = some (w / 2 / h) ∧
    ((p.generatePoints (n - 1) (w / 2) (h / (n : ℚ))).getD 2 { x := 0, y := 0 }).x
      - ((p.generatePoints (n - 1) (w / 2) (h / (n : ℚ))).getD 1 { x := 0, y := 0 }).x
      = w := by
  constructor
  · simp [Pyramid.calcBaseToHeightRatio, hc]
  · have hn1 : ((n - 1 : ℕ) : ℚ) + 1 = (n : ℚ) := by
      have h1 : (n - 1) + 1 = n := Nat.succ_pred_eq_of_pos hn
      exact_mod_cast h1
    have hh0 : h ≠ 0 := ne_of_gt hh
    have hn0 : (n : ℚ) ≠ 0 := by
      exact_mod_cast Nat.pos_iff_ne_zero.mp hn
    simp [Pyramid.generatePoints, List.getD, hr, hn1]
    field_simp
    ring

/-- C6 witness: on the demo pyramid after setDimensions (chart 250 by 350)
with the auto-fit ratio, the widest of 3 slices spans exactly 250. -/
theorem C6_autoFit_ratio_witness :
    demoFit.calcBaseToHeightRatio = some (250 / 2 / 350) ∧
    ((demoFit.generatePoints (3 - 1) (250 / 2) (350 / ((3 : ℕ) : ℚ))).getD 2
        { x := 0, y := 0 }).x
      - ((demoFit.generatePoints (3 - 1) (250 / 2) (350 / ((3 : ℕ) : ℚ))).getD 1
        { x := 0, y := 0 }).x
      = 250 :=
  C6_autoFit_ratio_fills_chart_width demoFit 250 350 3
    (by norm_num [demoFit, demoPyramid, Pyramid.setDimensions,
      Pyramid.setRelativeWidth])
    (by norm_num) (by norm_num)
    (by norm_num [demoFit, demoPyramid, Pyramid.setDimensions,
      Pyramid.setRelativeWidth])

/-- C7: with autoFit enabled, render gives the same result whatever ratio
was previously stored (so a value set through setRelativeWidth is
overwritten before any point is generated), and the ratio stored after
render is the auto-fit ratio computed from the freshly resolved chart
dimensions. -/
theorem C7_render_autoFit_overrides_ratio (p : Pyramid) (c : List SvgNode)
    (xs : List String) (r : ℚ)
    (hdata : p.data = .arr xs) (hfit : p.autoFit = true) :
    ({ p with baseToHeightRatio := r }).render c = p.render c ∧
    ((p.render c).2.map fun pr => pr.1.baseToHeightRatio)
      = some ((p.setDimensions.calcBaseToHeightRatio).getD 0) := by
  obtain ⟨d, br, pc, dims, cn, af, cs⟩ := p
  dsimp only at hdata hfit
  subst hdata hfit
  exact ⟨rfl, rfl⟩

/-- C7 witness: on the demo pyramid (autoFit true), rendering with a
previously stored ratio of 99 equals rendering with the default, and the
stored ratio afterwards is the auto-fit ratio of the current chart. -/
theorem C7_render_autoFit_overrides_witness :
    ({ demoPyramid with baseToHeightRatio := 99 }).render []
      = demoPyramid.render [] ∧
    ((demoPyramid.render []).2.map fun pr => pr.1.baseToHeightRatio)
      = some ((demoPyramid.setDimensions.calcBaseToHeightRatio).getD 0) :=
  C7_render_autoFit_overrides_ratio demoPyramid [] ["A", "B"] 99 rfl rfl

/-- C8 counterexample: the claim states every side named in the argument is
updated to the given value.  Naming the left side with the value 0 on the
default margins leaves left at 25 instead of updating it to 0, because
the source tests each provided side for truthiness before assigning. -/
theorem C8_cex_zero_left_margin_not_applied :
    demoPyramid.dimensions.margins
      = { top := 25, bottom := 25, left := 25, right := 25 } ∧
    ((demoPyramid.setMargins (.obj none none (some 0) none)).2.map
      fun q => q.dimensions.margins)
      = some { top := 25, bottom := 25, left := 25, right := 25 } ∧
    (25 : ℚ) ≠ 0 := by
  refine ⟨rfl, ?_, by norm_num⟩
  norm_num [Pyramid.setMargins, mergeSide, demoPyramid, JSVal.truthy]

/-- C8 amended: for EVERY argument object, including one mixing falsy and
truthy sides, setMargins changes exactly the margins record, merging per
side as the amended claim words it: a side named with a nonzero (truthy)
value is updated to that value, a side named with the falsy 0 or not
named at all retains its prior value; every other part of the pyramid
state is untouched and no diagnostic is logged. -/
theorem C8_setMargins_merges_named_truthy_sides (p : Pyramid)
    (t b l r : Option ℚ) (p' : Pyramid)
    (h : (p.setMargins (.obj t b l r)).2 = some p') :
    p' = { p with dimensions := { p.dimensions with margins :=
      { top := specMergeSide p.dimensions.margins.top t
        bottom := specMergeSide p.dimensions.margins.bottom b
        left := specMergeSide p.dimensions.margins.left l
        right := specMergeSide p.dimensions.margins.right r } } } ∧
    (p.setMargins (.obj t b l r)).1 = [] := by
  have hp := setMargins_obj_eq p t b l r p' h
  subst hp
  refine ⟨?_, rfl⟩
  simp [mergeSide_eq_specMergeSide]

/-- C8 witness: an argument mixing the falsy side top 0 with the truthy
side left 40 on the demo pyramid updates only the left margin, keeping
top, bottom, right and all other state. -/
theorem C8_setMargins_merge_witness :
    demoMargins40
      = { demoPyramid with dimensions := { demoPyramid.dimensions with
          margins :=
          { top := specMergeSide demoPyramid.dimensions.margins.top (some 0)
            bottom := specMergeSide demoPyramid.dimensions.margins.bottom none
            left := specMergeSide demoPyramid.dimensions.margins.left (some 40)
            right := specMergeSide demoPyramid.dimensions.margins.right
              none } } } ∧
    (demoPyramid.setMargins (.obj (some 0) none (some 40) none)).1 = [] :=
  C8_setMargins_merges_named_truthy_sides demoPyramid
    (some 0) none (some 40) none demoMargins40
    (by norm_num [Pyramid.setMargins, mergeSide, demoPyramid, demoMargins40,
      JSVal.truthy])

/-- C9: the source defines the auto-fit setter as the prototype method
named autoFit, not setAutoFit, and the constructor assigns the boolean
own property this.autoFit, which shadows that method on every instance:
property lookup of setAutoFit finds nothing, and lookup of autoFit finds
the boolean, which is not callable, so no auto-fit setter can be invoked
on any constructed renderer. -/
theorem C9_no_invocable_autoFit_setter (p : Pyramid) :
    p.lookupProp "setAutoFit" = LookupResult.missing ∧
    p.lookupProp "autoFit" = LookupResult.value (JSVal.bool p.autoFit) ∧
    (p.lookupProp "autoFit").callable = false ∧
    (p.lookupProp "setAutoFit").callable = false := by
  refine ⟨?_, ?_, ?_, ?_⟩ <;>
    simp [Pyramid.lookupProp, pyramidPrototypeMethods, LookupResult.callable]

/-- C10: for every margins state and every argument object, a side
supplied with the falsy value 0 is left unchanged - each of the four
sides, even when the same object also names other sides with truthy
values - and setMargins can never set a margin to zero: starting from
nonzero margins, every side stays nonzero whatever argument object is
given. -/
theorem C10_setMargins_zero_sides_never_applied
    (p pt pb pl pr p2 : Pyramid)
    (b1 l1 r1 t2 l2 r2 t3 b3 r3 t4 b4 l4 t5 b5 l5 r5 : Option ℚ)
    (hT : (p.setMargins (.obj (some 0) b1 l1 r1)).2 = some pt)
    (hB : (p.setMargins (.obj t2 (some 0) l2 r2)).2 = some pb)
    (hL : (p.setMargins (.obj t3 b3 (some 0) r3)).2 = some pl)
    (hR : (p.setMargins (.obj t4 b4 l4 (some 0))).2 = some pr)
    (h5 : (p.setMargins (.obj t5 b5 l5 r5)).2 = some p2)
    (hmt : p.dimensions.margins.top ≠ 0)
    (hmb : p.dimensions.margins.bottom ≠ 0)
    (hml : p.dimensions.margins.left ≠ 0)
    (hmr : p.dimensions.margins.right ≠ 0) :
    pt.dimensions.margins.top = p.dimensions.margins.top ∧
    pb.dimensions.margins.bottom = p.dimensions.margins.bottom ∧
    pl.dimensions.margins.left = p.dimensions.margins.left ∧
    pr.dimensions.margins.right = p.dimensions.margins.right ∧
    (p2.dimensions.margins.top < 0 ∨ 0 < p2.dimensions.margins.top) ∧
    (p2.dimensions.margins.bottom < 0 ∨ 0 < p2.dimensions.margins.bottom) ∧
    (p2.dimensions.margins.left < 0 ∨ 0 < p2.dimensions.margins.left) ∧
    (p2.dimensions.margins.right < 0 ∨ 0 < p2.dimensions.margins.right) := by
  have hpt := setMargins_obj_eq p (some 0) b1 l1 r1 pt hT
  have hpb := setMargins_obj_eq p t2 (some 0) l2 r2 pb hB
  have hpl := setMargins_obj_eq p t3 b3 (some 0) r3 pl hL
  have hpr := setMargins_obj_eq p t4 b4 l4 (some 0) pr hR
  have hp2 := setMargins_obj_eq p t5 b5 l5 r5 p2 h5
  subst hpt hpb hpl hpr hp2
  exact ⟨mergeSide_zero _, mergeSide_zero _, mergeSide_zero _, mergeSide_zero _,
    lt_or_gt_of_ne (mergeSide_ne_zero _ _ hmt),
    lt_or_gt_of_ne (mergeSide_ne_zero _ _ hmb),
    lt_or_gt_of_ne (mergeSide_ne_zero _ _ hml),
    lt_or_gt_of_ne (mergeSide_ne_zero _ _ hmr)⟩

/-- C10 witness: on the demo pyramid, a top of 0 next to a truthy left of
40 in the same object leaves the top margin at its prior value, a 0 for
each other side leaves that side unchanged, and after merging left 40 all
four margins are still nonzero. -/
theorem C10_setMargins_zero_sides_witness :
    demoMargins40.dimensions.margins.top = demoPyramid.dimensions.margins.top ∧
    demoPyramid.dimensions.margins.bottom
      = demoPyramid.dimensions.margins.bottom ∧
    demoPyramid.dimensions.margins.left
      = demoPyramid.dimensions.margins.left ∧
    demoPyramid.dimensions.margins.right
      = demoPyramid.dimensions.margins.right ∧
    (demoMargins40.dimensions.margins.top < 0
      ∨ 0 < demoMargins40.dimensions.margins.top) ∧
    (demoMargins40.dimensions.margins.bottom < 0
      ∨ 0 < demoMargins40.dimensions.margins.bottom) ∧
    (demoMargins40.dimensions.margins.left < 0
      ∨ 0 < demoMargins40.dimensions.margins.left) ∧
    (demoMargins40.dimensions.margins.right < 0
      ∨ 0 < demoMargins40.dimensions.margins.right) :=
  C10_setMargins_zero_sides_never_applied demoPyramid demoMargins40
    demoPyramid demoPyramid demoPyramid demoMargins40
    none (some 40) none
    none none none
    none none none
    none none none
    none none (some 40) none
    (by norm_num [Pyramid.setMargins, mergeSide, demoPyramid, demoMargins40,
      JSVal.truthy])
    (by norm_num [Pyramid.setMargins, mergeSide, demoPyramid, JSVal.truthy])
    (by norm_num [Pyramid.setMargins, mergeSide, demoPyramid, JSVal.truthy])
    (by norm_num [Pyramid.setMargins, mergeSide, demoPyramid, JSVal.truthy])
    (by norm_num [Pyramid.setMargins, mergeSide, demoPyramid, demoMargins40,
      JSVal.truthy])
    (by norm_num [demoPyramid]) (by norm_num [demoPyramid])
    (by norm_num [demoPyramid]) (by norm_num [demoPyramid])
